import Mathlib

/-
Verification development for the demand-forecast recommendation engine
(backend/core/recommended_order_service.py, backend/routes/orders.py,
backend/data/date_utils.py), shallowly embedded in Lean 4.

Dates are modelled as integer day numbers with day 0 = 1970-01-01, a
Thursday, so the Python convention weekday(Monday) = 0 gives
weekday d = (d + 3) mod 7.  Quantities are modelled as rationals; the
floating-point square root inside the standard-deviation computation is
abstracted as a function parameter.  Missing values (NaN) are modelled
with Option.
-/

namespace DemandForecast

/- ## Numeric helpers -/

/-- Mean of a list of rationals; 0 on the empty list (a case the grouped
computations never reach). -/
def mean (xs : List ℚ) : ℚ :=
  if xs.length = 0 then 0 else xs.sum / (xs.length : ℚ)

/-- Rounding to the nearest integer with ties to the even integer: the
rounding mode used by numpy and pandas `.round(0)`. -/
def roundHalfEven (q : ℚ) : ℤ :=
  let f := ⌊q⌋
  let r := q - (f : ℚ)
  if r < 1/2 then f
  else if 1/2 < r then f + 1
  else if f % 2 = 0 then f else f + 1

/-- Modelled from the spec: rounding half-up to the nearest integer unit,
a fractional part of exactly one half rounding upward.  Used only to
compare the specified rounding mode with the one the code performs. -/
def roundHalfUp (q : ℚ) : ℤ := ⌊q + 1/2⌋

/-- Truncation toward zero, the behavior of the Python int() conversion
applied to a float. -/
def intTrunc (q : ℚ) : ℤ := if 0 ≤ q then ⌊q⌋ else ⌈q⌉

/- ## WeekAligner (backend/data/date_utils.py, _ensure_sunday) -/

/-- Python datetime.weekday: Monday = 0 .. Sunday = 6.  Day 0 of our
calendar (1970-01-01) is a Thursday, hence the +3 offset. -/
def pyWeekday (d : ℤ) : ℤ := (d + 3) % 7

/-- _ensure_sunday / get_week_end_from_date: move a date forward to the
Sunday ending its Monday-Sunday week, by (6 - weekday) mod 7 days. -/
def weekEnd (d : ℤ) : ℤ := d + (6 - pyWeekday d) % 7

theorem pyWeekday_nonneg (d : ℤ) : 0 ≤ pyWeekday d :=
  Int.emod_nonneg _ (by norm_num)

theorem pyWeekday_lt (d : ℤ) : pyWeekday d < 7 :=
  Int.emod_lt_of_pos _ (by norm_num)

/-- C7: for every date d, week_end(d) = d + ((6 - weekday d) mod 7) days,
the result always falls on a Sunday (weekday 6), and the alignment is
idempotent. -/
theorem weekEnd_sunday_idempotent (d : ℤ) :
    weekEnd d = d + (6 - pyWeekday d) % 7 ∧
    pyWeekday (weekEnd d) = 6 ∧
    weekEnd (weekEnd d) = weekEnd d := by
  refine ⟨rfl, ?_, ?_⟩ <;>
  · unfold weekEnd pyWeekday
    omega

/- ## Generic insertion sort (kernel-reducible stand-in for sort_values) -/

def insertLe {α : Type} (le : α → α → Bool) (x : α) : List α → List α
  | [] => [x]
  | y :: ys => if le x y then x :: y :: ys else y :: insertLe le x ys

def insertionSort {α : Type} (le : α → α → Bool) : List α → List α
  | [] => []
  | x :: xs => insertLe le x (insertionSort le xs)

theorem mem_insertLe {α : Type} (le : α → α → Bool) (x a : α) (l : List α) :
    a ∈ insertLe le x l ↔ a = x ∨ a ∈ l := by
  induction l with
  | nil => simp [insertLe]
  | cons y ys ih =>
      unfold insertLe
      by_cases h : le x y = true
      · simp [h]
      · simp only [if_neg h, List.mem_cons, ih]
        tauto

theorem mem_insertionSort {α : Type} (le : α → α → Bool) (a : α) (l : List α) :
    a ∈ insertionSort le l ↔ a ∈ l := by
  induction l with
  | nil => simp [insertionSort]
  | cons x xs ih => simp [insertionSort, mem_insertLe, ih]

/- ## Data model -/

/-- One row of the weekly training history (train_df). -/
structure TrainRow where
  customer : String
  itemCode : String
  itemName : String
  trxDate : ℤ
  quantity : ℚ
deriving Repr, DecidableEq

/-- One row of the forecast snapshot (pred_df). `totalQuantity` is the
TotalQuantity column; `none` models NaN (genuine future weeks). -/
structure PredRow where
  trxDate : ℤ
  customer : String
  itemCode : String
  itemName : String
  predicted : ℚ
  confidence : String
  demandPattern : String
  dataSplit : String
  totalQuantity : Option ℚ
deriving Repr, DecidableEq

/-- One derived historical-metrics row (_compute_historical_metrics).
`stdQty = none` models the NaN sample standard deviation of a
single-observation group. -/
structure HistMetric where
  customer : String
  itemCode : String
  itemName : String
  avg4w : ℚ
  avg12w : ℚ
  avg24w : ℚ
  avg52w : ℚ
  meanQty : ℚ
  stdQty : Option ℚ
  cv : ℚ
  density : ℚ
  nonZeroWeeks : ℕ
  totalWeeks : ℕ
deriving Repr, DecidableEq

/- ## HistoricalMetricsEngine (_compute_historical_metrics) -/

def rowKey (r : TrainRow) : String × String × String :=
  (r.customer, r.itemCode, r.itemName)

def dateLe (a b : TrainRow) : Bool := decide (a.trxDate ≤ b.trxDate)

/-- The quantities of one (customer, item_code, item_name) group, in
week-ascending order: train_df.sort_values("TrxDate") restricted to the
group. -/
def groupObs (train : List TrainRow) (k : String × String × String) : List ℚ :=
  (insertionSort dateLe (train.filter (fun r => rowKey r == k))).map TrainRow.quantity

/-- x.tail(n).mean() if len(x) >= n else x.mean(). -/
def avgTail (n : ℕ) (qs : List ℚ) : ℚ :=
  if n ≤ qs.length then mean (qs.drop (qs.length - n)) else mean qs

/-- Sample variance (the square of the pandas sample standard deviation). -/
def sampleVar (qs : List ℚ) : ℚ :=
  (qs.map (fun x => (x - mean qs) ^ 2)).sum / ((qs.length : ℚ) - 1)

/-- All metric columns of one group.  `sq` abstracts the floating-point
square root taken by pandas std; CV reproduces
std / mean.replace(0, nan) followed by fillna(0). -/
def metricsOfGroup (sq : ℚ → ℚ) (k : String × String × String) (qs : List ℚ) :
    HistMetric :=
  let m := mean qs
  let std : Option ℚ := if 2 ≤ qs.length then some (sq (sampleVar qs)) else none
  { customer := k.1
    itemCode := k.2.1
    itemName := k.2.2
    avg4w := avgTail 4 qs
    avg12w := avgTail 12 qs
    avg24w := avgTail 24 qs
    avg52w := avgTail 52 qs
    meanQty := m
    stdQty := std
    cv := match std with
          | none => 0
          | some s => if m = 0 then 0 else s / m
    density := ((qs.countP (fun q => decide (0 < q)) : ℚ)) / (qs.length : ℚ)
    nonZeroWeeks := qs.countP (fun q => decide (0 < q))
    totalWeeks := qs.length }

/-- _compute_historical_metrics: one metrics row per distinct
(customer, item_code, item_name) key of the training history. -/
def computeHistoricalMetrics (sq : ℚ → ℚ) (train : List TrainRow) :
    List HistMetric :=
  ((train.map rowKey).dedup).map (fun k => metricsOfGroup sq k (groupObs train k))

/- ## RecommendationEngine (RecommendedOrderService) -/

/-- The state of a constructed service: the forecast snapshot plus the
three precomputed tables (self.pred_df, self.hist_metrics,
self.buying_cycle, self.customer_item_buying). -/
structure Service where
  predRows : List PredRow
  histMetrics : List HistMetric
  buyingCycle : List (String × String × Option ℚ)
  buyCounts : List (String × String × ℕ)
deriving Repr

/-- Left join against hist_metrics on (CustomerName, ItemCode, ItemName). -/
def lookupHist (tbl : List HistMetric) (c i n : String) : Option HistMetric :=
  tbl.find? (fun m => m.customer == c && m.itemCode == i && m.itemName == n)

/-- Left join against buying_cycle on (CustomerName, ItemCode); a missing
pair and a stored NaN both yield none (the BuyingCycleWeeks column is
never filled). -/
def lookupCycle (tbl : List (String × String × Option ℚ)) (c i : String) :
    Option ℚ :=
  match tbl.find? (fun e => e.1 == c && e.2.1 == i) with
  | some e => e.2.2
  | none => none

/-- Left join against customer_item_buying on (CustomerName, ItemCode),
followed by fillna(0) on buy_count. -/
def lookupBuyCount (tbl : List (String × String × ℕ)) (c i : String) : ℕ :=
  match tbl.find? (fun e => e.1 == c && e.2.1 == i) with
  | some e => e.2.2
  | none => 0

/-- A forecast row after the three metric joins, with every missing
numeric metric defaulted to 0 (the fillna(0) calls). -/
structure EnrichedRow where
  row : PredRow
  avg4w : ℚ
  avg12w : ℚ
  avg24w : ℚ
  avg52w : ℚ
  cv : ℚ
  density : ℚ
  buyingCycleWeeks : Option ℚ
  buyCount : ℕ
deriving Repr, DecidableEq

def enrichRow (svc : Service) (r : PredRow) : EnrichedRow :=
  match lookupHist svc.histMetrics r.customer r.itemCode r.itemName with
  | some m =>
      { row := r, avg4w := m.avg4w, avg12w := m.avg12w, avg24w := m.avg24w
        avg52w := m.avg52w, cv := m.cv, density := m.density
        buyingCycleWeeks := lookupCycle svc.buyingCycle r.customer r.itemCode
        buyCount := lookupBuyCount svc.buyCounts r.customer r.itemCode }
  | none =>
      { row := r, avg4w := 0, avg12w := 0, avg24w := 0
        avg52w := 0, cv := 0, density := 0
        buyingCycleWeeks := lookupCycle svc.buyingCycle r.customer r.itemCode
        buyCount := lookupBuyCount svc.buyCounts r.customer r.itemCode }

/-- _calculate_buffer, translated statement by statement. -/
def calculateBuffer (e : EnrichedRow) : ℚ :=
  let b0 : ℚ := 0
  let b1 :=
    if e.row.demandPattern == "Smooth" then
      b0 + (if e.row.confidence == "High" then 0.05 else 0.10)
    else if e.row.demandPattern == "Intermittent" then b0 + 0.20
    else b0 + 0.05
  let b2 := if e.row.confidence == "Low" then b1 + 0.10 else b1
  let b3 := if decide (1 < e.cv) then b2 + 0.10 else b2
  min b3 0.30

/-- _calculate_reason_code. -/
def calculateReasonCode (e : EnrichedRow) : String :=
  if e.buyCount == 0 then "New or rarely purchased item"
  else if e.row.confidence == "Low" then
    "Low forecast confidence - safety buffer added"
  else if decide (1 < e.cv) then "High demand volatility"
  else "Stable buying pattern"

/-- One output record (the selected columns of result_df). -/
structure Recommendation where
  trxDate : ℤ
  customer : String
  itemCode : String
  itemName : String
  actualQty : Option ℚ
  predicted : ℚ
  baseQty : ℚ
  recommendedQty : ℤ
  confidence : String
  demandPattern : String
  buyingCycleWeeks : Option ℚ
  avg4w : ℚ
  avg12w : ℚ
  avg24w : ℚ
  avg52w : ℚ
  bufferQty : ℤ
  bufferPct : ℚ
  density : ℚ
  cv : ℚ
  reasonCode : String
  buyCount : ℕ
deriving Repr, DecidableEq

/-- ActualQty, BufferPct, BaseQty, BufferQty, RecommendedOrderQty and
ReasonCode, in the order the code computes them.  BaseQty is the
NaN-skipping row maximum of ActualQty and Predicted. -/
def scoreRow (e : EnrichedRow) : Recommendation :=
  let actual := e.row.totalQuantity
  let bufferPct := calculateBuffer e
  let base : ℚ :=
    match actual with
    | none => e.row.predicted
    | some a => max a e.row.predicted
  let bufferQty := roundHalfEven (base * bufferPct)
  let recQty := roundHalfEven (base + (bufferQty : ℚ))
  { trxDate := e.row.trxDate
    customer := e.row.customer
    itemCode := e.row.itemCode
    itemName := e.row.itemName
    actualQty := actual
    predicted := e.row.predicted
    baseQty := base
    recommendedQty := recQty
    confidence := e.row.confidence
    demandPattern := e.row.demandPattern
    buyingCycleWeeks := e.buyingCycleWeeks
    avg4w := e.avg4w
    avg12w := e.avg12w
    avg24w := e.avg24w
    avg52w := e.avg52w
    bufferQty := bufferQty
    bufferPct := bufferPct
    density := e.density
    cv := e.cv
    reasonCode := calculateReasonCode e
    buyCount := e.buyCount }

/-- Row selection for the target week: all forecast-snapshot rows whose
TrxDate equals the aligned target. -/
def selectWeek (pred : List PredRow) (target : ℤ) : List PredRow :=
  pred.filter (fun r => r.trxDate == target)

/-- The Test and Forecast partitions of the selected rows. -/
def weekSplits (pred : List PredRow) (target : ℤ) :
    List PredRow × List PredRow :=
  ((selectWeek pred target).filter (fun r => r.dataSplit == "Test"),
   (selectWeek pred target).filter (fun r => r.dataSplit == "Forecast"))

/-- Whether the (customer, item_code) pair of r occurs in the Test
partition. -/
def pairCovered (test : List PredRow) (r : PredRow) : Bool :=
  test.any (fun t => t.customer == r.customer && t.itemCode == r.itemCode)

/-- pd.concat of the Test rows with the Forecast rows whose pair is not
covered by Test. -/
def mergeTestForecast (test forecast : List PredRow) : List PredRow :=
  test ++ forecast.filter (fun r => !pairCovered test r)

def mergedWeekRows (pred : List PredRow) (target : ℤ) : List PredRow :=
  mergeTestForecast (weekSplits pred target).1 (weekSplits pred target).2

/-- The smart tiered filter. -/
def eligibleRow (e : EnrichedRow) : Bool :=
  decide (0 < e.buyCount) &&
    (decide (1 ≤ e.row.predicted) || decide (10 ≤ e.buyCount))

/-- The Python truthiness test `if customer_filter:` makes an empty-string
filter behave exactly like an absent one. -/
def activeFilter (f : Option String) : Option String :=
  match f with
  | some s => if s == "" then none else some s
  | none => none

/-- The dataframe right before scoring: merged week rows, metric joins,
eligibility filter, optional customer filter. -/
def selectedRows (svc : Service) (target : ℤ) (f : Option String) :
    List EnrichedRow :=
  let enriched := (mergedWeekRows svc.predRows target).map (enrichRow svc)
  let elig := enriched.filter eligibleRow
  match activeFilter f with
  | some c => elig.filter (fun e => e.row.customer == c)
  | none => elig

/-- sort_values(["CustomerName", "RecommendedOrderQty"],
ascending=[True, False]). -/
def recLe (a b : Recommendation) : Bool :=
  if a.customer == b.customer then decide (b.recommendedQty ≤ a.recommendedQty)
  else decide (a.customer < b.customer)

structure Summary where
  date : ℤ
  customers : ℕ
  items : ℕ
  totalOrderQty : ℤ
  totalPredictedQty : ℤ
  totalBufferQty : ℤ
  customerFilter : String
deriving Repr, DecidableEq

structure RecResult where
  success : Bool
  date : ℤ
  error : Option String
  data : List Recommendation
  summary : Option Summary
deriving Repr, DecidableEq

/-- `customer_filter or "All"`. -/
def filterLabel (f : Option String) : String :=
  match f with
  | some s => if s == "" then "All" else s
  | none => "All"

/-- The summary block: nunique customers, row count, int() of the three
column sums, and the effective filter label. -/
def mkSummary (date : ℤ) (f : Option String) (rows : List Recommendation) :
    Summary :=
  { date := date
    customers := (rows.map Recommendation.customer).dedup.length
    items := rows.length
    totalOrderQty := intTrunc ((rows.map (fun r => (r.recommendedQty : ℚ))).sum)
    totalPredictedQty := intTrunc ((rows.map Recommendation.predicted).sum)
    totalBufferQty := intTrunc ((rows.map (fun r => (r.bufferQty : ℚ))).sum)
    customerFilter := filterLabel f }

/-- generate_recommended_orders: align the date, check the two
representable failure modes, then merge, join, filter, score, sort and
summarize. -/
def generateRecommendedOrders (svc : Service) (targetDate : ℤ)
    (f : Option String) : RecResult :=
  let target := weekEnd targetDate
  if svc.predRows.isEmpty then
    { success := false, date := target
      error := some "Prediction data not available"
      data := [], summary := none }
  else if (selectWeek svc.predRows target).isEmpty then
    { success := false, date := target
      error := some "No prediction data available for date"
      data := [], summary := none }
  else
    let rows := insertionSort recLe ((selectedRows svc target f).map scoreRow)
    { success := true, date := target, error := none, data := rows
      summary := some (mkSummary target f rows) }

/- ## Route-level cache (backend/routes/orders.py) -/

/-- One API request: the raw query string of the target date, the
calendar date it denotes, and the optional customer filter. -/
structure OrderRequest where
  rawDate : String
  parsedDate : ℤ
  customer : Option String
deriving Repr, DecidableEq

/-- `customer or "all"`: Python truthiness maps both None and the empty
string to "all". -/
def pyOrAll (s : Option String) : String :=
  match s with
  | some t => if t == "" then "all" else t
  | none => "all"

/-- f-string cache key built from the RAW (un-aligned) target date. -/
def cacheKey (r : OrderRequest) : String := r.rawDate ++ "_" ++ pyOrAll r.customer

structure RouteState where
  cache : List (String × RecResult)
  computeCount : ℕ
deriving Repr

def initRouteState : RouteState := { cache := [], computeCount := 0 }

/-- get_recommended_orders with use_cache=True: serve a cache hit without
recomputation; on a miss generate, and store the result when it is
successful. -/
def handleRequest (svc : Service) (s : RouteState) (r : OrderRequest) :
    RouteState × RecResult :=
  let key := cacheKey r
  match s.cache.find? (fun e => e.1 == key) with
  | some e => (s, e.2)
  | none =>
      let res := generateRecommendedOrders svc r.parsedDate r.customer
      if res.success then
        ({ cache := (key, res) :: s.cache, computeCount := s.computeCount + 1 }, res)
      else
        ({ s with computeCount := s.computeCount + 1 }, res)

def runRequests (svc : Service) (s : RouteState) : List OrderRequest → RouteState
  | [] => s
  | r :: rs => runRequests svc (handleRequest svc s r).1 rs

/- ## Shared structural lemmas about the pipeline -/

theorem enrichRow_row (svc : Service) (r : PredRow) : (enrichRow svc r).row = r := by
  unfold enrichRow
  split <;> rfl

theorem mem_selectedRows (svc : Service) (target : ℤ) (f : Option String)
    (e : EnrichedRow) (he : e ∈ selectedRows svc target f) :
    e ∈ (mergedWeekRows svc.predRows target).map (enrichRow svc) ∧
      eligibleRow e = true := by
  unfold selectedRows at he
  rcases hf : activeFilter f with _ | c <;> rw [hf] at he
  · exact ⟨(List.mem_filter.1 he).1, (List.mem_filter.1 he).2⟩
  · have h1 := List.mem_filter.1 he
    exact ⟨(List.mem_filter.1 h1.1).1, (List.mem_filter.1 h1.1).2⟩

theorem mem_generate_data (svc : Service) (d : ℤ) (f : Option String)
    (r : Recommendation) (hr : r ∈ (generateRecommendedOrders svc d f).data) :
    ∃ e, e ∈ selectedRows svc (weekEnd d) f ∧ r = scoreRow e := by
  unfold generateRecommendedOrders at hr
  by_cases h1 : svc.predRows.isEmpty
  · simp [h1] at hr
  · by_cases h2 : (selectWeek svc.predRows (weekEnd d)).isEmpty
    · simp [h1, h2] at hr
    · simp only [h1, h2, Bool.false_eq_true, if_false] at hr
      rw [mem_insertionSort] at hr
      obtain ⟨e, he, heq⟩ := List.mem_map.1 hr
      exact ⟨e, he, heq.symm⟩

/- ## C1: buffer percentage -/

/-- Modelled from the spec: the sum of the applicable buffer
contributions of the Step 8 table. -/
def bufferSpecSum (e : EnrichedRow) : ℚ :=
  (if e.row.demandPattern = "Smooth" then
     (if e.row.confidence = "High" then 0.05 else 0.10)
   else if e.row.demandPattern = "Intermittent" then 0.20 else 0.05)
  + (if e.row.confidence = "Low" then 0.10 else 0)
  + (if 1 < e.cv then 0.10 else 0)

theorem calculateBuffer_bounds (e : EnrichedRow) :
    0 ≤ calculateBuffer e ∧ calculateBuffer e ≤ 0.30 := by
  simp only [calculateBuffer]
  refine ⟨le_min ?_ (by norm_num), min_le_right _ _⟩
  split_ifs <;> norm_num

/-- C1: buffer_pct equals the capped sum of the applicable contributions
(0.05 Smooth-High, 0.10 Smooth-other, 0.20 Intermittent, 0.05 otherwise,
plus 0.10 for Low confidence, plus 0.10 for cv > 1, capped at 0.30), and
every output row of the engine has 0 <= buffer_pct <= 0.30. -/
theorem buffer_pct_spec :
    (∀ e : EnrichedRow, calculateBuffer e = min (bufferSpecSum e) 0.30) ∧
    (∀ (svc : Service) (d : ℤ) (f : Option String) (r : Recommendation),
      r ∈ (generateRecommendedOrders svc d f).data →
        0 ≤ r.bufferPct ∧ r.bufferPct ≤ 0.30) := by
  constructor
  · intro e
    unfold calculateBuffer bufferSpecSum
    simp only [beq_iff_eq, decide_eq_true_eq]
    split_ifs <;> norm_num
  · intro svc d f r hr
    obtain ⟨e, _, rfl⟩ := mem_generate_data svc d f r hr
    exact calculateBuffer_bounds e

/- ## Concrete data used by witnesses and counterexamples -/

def predRowDemo : PredRow :=
  { trxDate := 19729, customer := "ACME", itemCode := "I1", itemName := "Widget"
    predicted := 50, confidence := "High", demandPattern := "Smooth"
    dataSplit := "Forecast", totalQuantity := none }

def svcDemo : Service :=
  { predRows := [predRowDemo], histMetrics := [], buyingCycle := []
    buyCounts := [("ACME", "I1", 5)] }

def eDemo : EnrichedRow := enrichRow svcDemo predRowDemo

def recDemo : Recommendation := scoreRow eDemo

theorem buffer_pct_spec_witness :
    0 ≤ recDemo.bufferPct ∧ recDemo.bufferPct ≤ 0.30 :=
  buffer_pct_spec.2 svcDemo 19723 none recDemo (by
    norm_num +decide [generateRecommendedOrders, selectedRows, mergedWeekRows,
      weekSplits, selectWeek, mergeTestForecast, pairCovered, enrichRow,
      lookupHist, lookupCycle, lookupBuyCount, eligibleRow, activeFilter,
      scoreRow, calculateBuffer, calculateReasonCode, insertionSort, insertLe,
      recLe, roundHalfEven, weekEnd, pyWeekday, svcDemo, predRowDemo, eDemo,
      recDemo])

/- ## C2: rounding mode of the final quantities -/

/-- C2 (amended): buffer_qty = round(base_qty * buffer_pct) and
recommended_qty = round(base_qty + buffer_qty) where round is the
half-to-even rounding performed by pandas round(0), not half-up. -/
theorem rounding_half_even (svc : Service) (d : ℤ) (f : Option String)
    (r : Recommendation) (hr : r ∈ (generateRecommendedOrders svc d f).data) :
    r.bufferQty = roundHalfEven (r.baseQty * r.bufferPct) ∧
    r.recommendedQty = roundHalfEven (r.baseQty + (r.bufferQty : ℚ)) := by
  obtain ⟨e, _, rfl⟩ := mem_generate_data svc d f r hr
  exact ⟨rfl, rfl⟩

theorem rounding_half_even_witness :
    recDemo.bufferQty = roundHalfEven (recDemo.baseQty * recDemo.bufferPct) ∧
    recDemo.recommendedQty =
      roundHalfEven (recDemo.baseQty + (recDemo.bufferQty : ℚ)) :=
  rounding_half_even svcDemo 19723 none recDemo (by
    norm_num +decide [generateRecommendedOrders, selectedRows, mergedWeekRows,
      weekSplits, selectWeek, mergeTestForecast, pairCovered, enrichRow,
      lookupHist, lookupCycle, lookupBuyCount, eligibleRow, activeFilter,
      scoreRow, calculateBuffer, calculateReasonCode, insertionSort, insertLe,
      recLe, roundHalfEven, weekEnd, pyWeekday, svcDemo, predRowDemo, eDemo,
      recDemo])

/-- C2 counterexample: for a Forecast row with predicted 50, Smooth
pattern and High confidence, base_qty * buffer_pct = 2.5, the engine
emits buffer_qty = 2 (ties to even) while half-up rounding gives 3. -/
theorem rounding_half_up_counterexample :
    ((generateRecommendedOrders svcDemo 19723 none).data.map
      (fun r => (r.bufferQty, roundHalfUp (r.baseQty * r.bufferPct)))) = [(2, 3)] ∧
    (2 : ℤ) ≠ 3 := by
  constructor
  · norm_num +decide [generateRecommendedOrders, selectedRows, mergedWeekRows,
      weekSplits, selectWeek, mergeTestForecast, pairCovered, enrichRow,
      lookupHist, lookupCycle, lookupBuyCount, eligibleRow, activeFilter,
      scoreRow, calculateBuffer, calculateReasonCode, insertionSort, insertLe,
      recLe, roundHalfEven, roundHalfUp, weekEnd, pyWeekday, svcDemo,
      predRowDemo]
  · decide

/- ## C3: Test-over-Forecast preference -/

/-- C3: among the rows selected for the target week, every Test row is
kept, a Forecast row whose (customer, item_code) pair is covered by Test
is discarded, the merged set is exactly the Test rows plus the uncovered
Forecast rows, and a pair present in both partitions emits a row with a
non-null actual quantity whenever the Test partition carries actuals. -/
theorem test_over_forecast (pred : List PredRow) (target : ℤ) :
    (∀ r ∈ (weekSplits pred target).1, r ∈ mergedWeekRows pred target) ∧
    (∀ r ∈ (weekSplits pred target).2,
      pairCovered (weekSplits pred target).1 r = true →
        r ∉ mergedWeekRows pred target) ∧
    (∀ r : PredRow, r ∈ mergedWeekRows pred target ↔
      (r ∈ (weekSplits pred target).1 ∨
       (r ∈ (weekSplits pred target).2 ∧
        pairCovered (weekSplits pred target).1 r = false))) ∧
    (∀ c i : String,
      (∃ t ∈ (weekSplits pred target).1, t.customer = c ∧ t.itemCode = i) →
      (∃ t ∈ (weekSplits pred target).2, t.customer = c ∧ t.itemCode = i) →
      (∀ t ∈ (weekSplits pred target).1, t.totalQuantity.isSome = true) →
      ∃ r ∈ mergedWeekRows pred target,
        r.customer = c ∧ r.itemCode = i ∧ r.totalQuantity.isSome = true) := by
  refine ⟨?_, ?_, ?_, ?_⟩
  · intro r hr
    exact List.mem_append_left _ hr
  · intro r hr hcov hmem
    rcases List.mem_append.1 hmem with h | h
    · have h1 : (r.dataSplit == "Test") = true := (List.mem_filter.1 h).2
      have h2 : (r.dataSplit == "Forecast") = true := (List.mem_filter.1 hr).2
      rw [beq_iff_eq] at h1 h2
      simp [h1] at h2
    · have := (List.mem_filter.1 h).2
      rw [hcov] at this
      simp at this
  · intro r
    unfold mergedWeekRows mergeTestForecast
    simp [List.mem_filter, Bool.not_eq_true']
  · intro c i ht _ hact
    obtain ⟨t, htm, htc, hti⟩ := ht
    exact ⟨t, List.mem_append_left _ htm, htc, hti, hact t htm⟩

def tRowC3 : PredRow :=
  { trxDate := 19729, customer := "ACME", itemCode := "I1", itemName := "Widget"
    predicted := 8, confidence := "High", demandPattern := "Smooth"
    dataSplit := "Test", totalQuantity := some 12 }

def fRowC3 : PredRow :=
  { trxDate := 19729, customer := "ACME", itemCode := "I1", itemName := "Widget"
    predicted := 8, confidence := "High", demandPattern := "Smooth"
    dataSplit := "Forecast", totalQuantity := none }

def predC3 : List PredRow := [tRowC3, fRowC3]

theorem test_over_forecast_witness :
    tRowC3 ∈ mergedWeekRows predC3 19729 ∧
    fRowC3 ∉ mergedWeekRows predC3 19729 :=
  ⟨(test_over_forecast predC3 19729).1 tRowC3 (by
      norm_num +decide [weekSplits, selectWeek, predC3, tRowC3, fRowC3]),
   (test_over_forecast predC3 19729).2.1 fRowC3 (by
      norm_num +decide [weekSplits, selectWeek, predC3, tRowC3, fRowC3])
     (by norm_num +decide [weekSplits, selectWeek, pairCovered, predC3,
           tRowC3, fRowC3])⟩

/- ## C4: eligibility filter -/

/-- C4: every output row has buy_count > 0 and either a predicted
quantity of at least 1 or at least 10 historical purchase occurrences. -/
theorem eligibility_filter_holds (svc : Service) (d : ℤ) (f : Option String)
    (r : Recommendation) (hr : r ∈ (generateRecommendedOrders svc d f).data) :
    0 < r.buyCount ∧ (1 ≤ r.predicted ∨ 10 ≤ r.buyCount) := by
  obtain ⟨e, he, rfl⟩ := mem_generate_data svc d f r hr
  have hel := (mem_selectedRows svc (weekEnd d) f e he).2
  unfold eligibleRow at hel
  simp only [Bool.and_eq_true, Bool.or_eq_true, decide_eq_true_eq] at hel
  exact hel

theorem eligibility_filter_witness :
    0 < recDemo.buyCount ∧ (1 ≤ recDemo.predicted ∨ 10 ≤ recDemo.buyCount) :=
  eligibility_filter_holds svcDemo 19723 none recDemo (by
    norm_num +decide [generateRecommendedOrders, selectedRows, mergedWeekRows,
      weekSplits, selectWeek, mergeTestForecast, pairCovered, enrichRow,
      lookupHist, lookupCycle, lookupBuyCount, eligibleRow, activeFilter,
      scoreRow, calculateBuffer, calculateReasonCode, insertionSort, insertLe,
      recLe, roundHalfEven, weekEnd, pyWeekday, svcDemo, predRowDemo, eDemo,
      recDemo])

/- ## C5: graceful degradation of the rolling averages -/

theorem mean_pos (qs : List ℚ) (h : qs ≠ []) (hq : ∀ q ∈ qs, 0 < q) :
    0 < mean qs := by
  unfold mean
  rw [if_neg (Nat.pos_iff_ne_zero.1 (List.length_pos.2 h))]
  exact div_pos (List.sum_pos qs hq h)
    (by exact_mod_cast List.length_pos.2 h)

/-- The graceful-degradation rule of one N-week average, stated as the
spec words it: the mean of the last N observations when at least N exist,
the mean of all observations otherwise, and never zero merely because
fewer than N positive observations exist. -/
def avgGracefulAt (qs : List ℚ) (n : ℕ) (v : ℚ) : Prop :=
  (n ≤ qs.length → v = mean (qs.drop (qs.length - n))) ∧
  (qs.length < n → v = mean qs) ∧
  (qs.length < n → (∀ q ∈ qs, 0 < q) → 0 < v)

/-- The C5 property of one historical-metrics row. -/
def avgGraceful (train : List TrainRow) (m : HistMetric) : Prop :=
  groupObs train (m.customer, m.itemCode, m.itemName) ≠ [] ∧
  avgGracefulAt (groupObs train (m.customer, m.itemCode, m.itemName)) 4 m.avg4w ∧
  avgGracefulAt (groupObs train (m.customer, m.itemCode, m.itemName)) 12 m.avg12w ∧
  avgGracefulAt (groupObs train (m.customer, m.itemCode, m.itemName)) 24 m.avg24w ∧
  avgGracefulAt (groupObs train (m.customer, m.itemCode, m.itemName)) 52 m.avg52w

theorem avgTail_graceful (qs : List ℚ) (h : qs ≠ []) (n : ℕ) :
    avgGracefulAt qs n (avgTail n qs) := by
  refine ⟨fun hle => ?_, fun hlt => ?_, fun hlt hpos => ?_⟩
  · unfold avgTail
    rw [if_pos hle]
  · unfold avgTail
    rw [if_neg (not_le.2 hlt)]
  · unfold avgTail
    rw [if_neg (not_le.2 hlt)]
    exact mean_pos qs h hpos

/-- C5: for every group of the history, sorted by week ascending, each of
avg_4w, avg_12w, avg_24w, avg_52w is the mean of the last N observations
when at least N exist and the mean of all observations otherwise, never
silently zero for a shorter, all-positive history. -/
theorem avg_rolling_graceful (sq : ℚ → ℚ) (train : List TrainRow)
    (m : HistMetric) (hm : m ∈ computeHistoricalMetrics sq train) :
    avgGraceful train m := by
  obtain ⟨k, hk, rfl⟩ := List.mem_map.1 hm
  obtain ⟨a, b, c⟩ := k
  obtain ⟨r, hr, hkey⟩ := List.mem_map.1 (List.mem_dedup.1 hk)
  have hne : groupObs train (a, b, c) ≠ [] := by
    apply List.ne_nil_of_mem (a := r.quantity)
    unfold groupObs
    apply List.mem_map_of_mem
    rw [mem_insertionSort]
    exact List.mem_filter.2 ⟨hr, by rw [hkey]; exact beq_self_eq_true _⟩
  exact ⟨hne, avgTail_graceful _ hne 4, avgTail_graceful _ hne 12,
    avgTail_graceful _ hne 24, avgTail_graceful _ hne 52⟩

def trainDemo : List TrainRow :=
  [ { customer := "ACME", itemCode := "I1", itemName := "Widget"
      trxDate := 19600, quantity := 5 },
    { customer := "ACME", itemCode := "I1", itemName := "Widget"
      trxDate := 19607, quantity := 7 } ]

/-- The metrics row the engine derives from trainDemo. -/
def mDemo : HistMetric :=
  { customer := "ACME", itemCode := "I1", itemName := "Widget"
    avg4w := 6, avg12w := 6, avg24w := 6, avg52w := 6
    meanQty := 6, stdQty := some 2, cv := 1/3, density := 1
    nonZeroWeeks := 2, totalWeeks := 2 }

theorem avg_rolling_graceful_witness : avgGraceful trainDemo mDemo :=
  avg_rolling_graceful id trainDemo mDemo (by
    norm_num +decide [computeHistoricalMetrics, metricsOfGroup, groupObs,
      rowKey, dateLe, insertionSort, insertLe, mean, avgTail, sampleVar,
      trainDemo, mDemo])

/- ## C6: guarded coefficient of variation -/

/-- The C6 property of one historical-metrics row: cv is std/mean for a
positive mean and a defined std, and 0 when the mean is zero, when the
std is undefined, and for single-observation groups. -/
def cvGuarded (m : HistMetric) : Prop :=
  (∀ s : ℚ, m.stdQty = some s → 0 < m.meanQty → m.cv = s / m.meanQty) ∧
  (m.meanQty = 0 → m.cv = 0) ∧
  (m.stdQty = none → m.cv = 0) ∧
  (m.totalWeeks ≤ 1 → m.cv = 0)

/-- C6: every derived metrics row satisfies the cv guard; the division is
never taken with a zero mean and cv is always a finite rational. -/
theorem cv_never_nan (sq : ℚ → ℚ) (train : List TrainRow)
    (m : HistMetric) (hm : m ∈ computeHistoricalMetrics sq train) :
    cvGuarded m := by
  obtain ⟨k, _, rfl⟩ := List.mem_map.1 hm
  unfold metricsOfGroup
  by_cases hlen : 2 ≤ (groupObs train k).length
  · refine ⟨?_, ?_, ?_, ?_⟩ <;> simp only [if_pos hlen]
    · intro s hs hmean
      simp only [Option.some.injEq] at hs
      simp [← hs, ne_of_gt hmean]
    · intro hmean
      simp [hmean]
    · intro hnone
      simp at hnone
    · intro hone
      omega
  · refine ⟨?_, ?_, ?_, ?_⟩ <;> simp only [if_neg hlen]
    · intro s hs
      simp at hs
    · intro _
      trivial
    · intro _
      trivial
    · intro _
      trivial

theorem cv_never_nan_witness : cvGuarded mDemo :=
  cv_never_nan id trainDemo mDemo (by
    norm_num +decide [computeHistoricalMetrics, metricsOfGroup, groupObs,
      rowKey, dateLe, insertionSort, insertLe, mean, avgTail, sampleVar,
      trainDemo, mDemo])

/- ## C8: the recommendations cache -/

def reqMon : OrderRequest :=
  { rawDate := "2024-01-01", parsedDate := 19723, customer := none }

def reqTue : OrderRequest :=
  { rawDate := "2024-01-02", parsedDate := 19724, customer := none }

/-- C8 counterexample: two requests for a Monday and a Tuesday of the
same week (both aligning to Sunday 19729 = 2024-01-07, same absent
customer filter) produce two distinct cache entries under distinct raw
keys, and the second request is recomputed rather than served from the
cache. -/
theorem cache_per_aligned_week_counterexample :
    ((runRequests svcDemo initRouteState [reqMon, reqTue]).cache.map
        (fun e => (e.1, e.2.date, e.2.summary.map Summary.customerFilter)))
      = [("2024-01-02_all", 19729, some "All"),
         ("2024-01-01_all", 19729, some "All")] ∧
    (runRequests svcDemo initRouteState [reqMon, reqTue]).computeCount = 2 ∧
    ("2024-01-02_all" : String) ≠ "2024-01-01_all" ∧
    weekEnd reqMon.parsedDate = weekEnd reqTue.parsedDate := by
  refine ⟨by decide, by decide, by decide, by decide⟩

theorem keys_nodup_handle (svc : Service) (s : RouteState) (r : OrderRequest)
    (h : (s.cache.map Prod.fst).Nodup) :
    (((handleRequest svc s r).1).cache.map Prod.fst).Nodup := by
  unfold handleRequest
  rcases hfind : s.cache.find? (fun e => e.1 == cacheKey r) with _ | e
  · simp only [hfind]
    split
    · refine List.Nodup.cons ?_ h
      intro hmem
      obtain ⟨x, hx, hx1⟩ := List.mem_map.1 hmem
      have := List.find?_eq_none.1 hfind x hx
      simp [hx1] at this
    · exact h
  · simp only [hfind]
    exact h

theorem keys_nodup_run (svc : Service) (reqs : List OrderRequest) :
    ∀ s : RouteState, (s.cache.map Prod.fst).Nodup →
      (((runRequests svc s reqs).cache.map Prod.fst)).Nodup := by
  induction reqs with
  | nil => intro s h; exact h
  | cons r rs ih =>
      intro s h
      exact ih _ (keys_nodup_handle svc s r h)

/-- C8 (amended): the cache is keyed by the RAW request date string and
the customer filter, holds at most one entry per such key, and a request
whose key is already cached is answered from the cache with the state
(and hence the computation count) unchanged. -/
theorem cache_keyed_by_raw_request :
    (∀ (svc : Service) (reqs : List OrderRequest),
      (((runRequests svc initRouteState reqs).cache.map Prod.fst)).Nodup) ∧
    (∀ (svc : Service) (s : RouteState) (r : OrderRequest)
        (e : String × RecResult),
      s.cache.find? (fun x => x.1 == cacheKey r) = some e →
      handleRequest svc s r = (s, e.2)) := by
  constructor
  · intro svc reqs
    exact keys_nodup_run svc reqs initRouteState (by simp [initRouteState])
  · intro svc s r e hfind
    simp only [handleRequest, hfind]

def st1 : RouteState := (handleRequest svcDemo initRouteState reqMon).1

def entry1 : String × RecResult :=
  ("2024-01-01_all", generateRecommendedOrders svcDemo 19723 none)

theorem cache_keyed_by_raw_request_witness :
    handleRequest svcDemo st1 reqMon = (st1, entry1.2) :=
  cache_keyed_by_raw_request.2 svcDemo st1 reqMon entry1 rfl

/- ## C9: the summary block -/

theorem intTrunc_intCast (n : ℤ) : intTrunc ((n : ℚ)) = n := by
  unfold intTrunc
  split_ifs <;> simp

theorem sum_map_intCast {α : Type} (l : List α) (g : α → ℤ) :
    ((l.map (fun x => ((g x : ℤ) : ℚ))).sum) = (((l.map g).sum : ℤ) : ℚ) := by
  induction l with
  | nil => simp
  | cons x xs ih => simp [ih]

theorem mkSummary_totalOrderQty (date : ℤ) (f : Option String)
    (rows : List Recommendation) :
    (mkSummary date f rows).totalOrderQty =
      (rows.map Recommendation.recommendedQty).sum := by
  show intTrunc ((rows.map (fun r => ((r.recommendedQty : ℤ) : ℚ))).sum) = _
  rw [sum_map_intCast rows Recommendation.recommendedQty, intTrunc_intCast]

theorem mkSummary_totalBufferQty (date : ℤ) (f : Option String)
    (rows : List Recommendation) :
    (mkSummary date f rows).totalBufferQty =
      (rows.map Recommendation.bufferQty).sum := by
  show intTrunc ((rows.map (fun r => ((r.bufferQty : ℤ) : ℚ))).sum) = _
  rw [sum_map_intCast rows Recommendation.bufferQty, intTrunc_intCast]

/-- The summary facts as the claim states them: distinct-customer count,
row count, the three column totals and the effective filter label. -/
def summarySpec (res : RecResult) (label : String) (wk : ℤ) : Prop :=
  res.summary.map Summary.date = some wk ∧
  res.summary.map Summary.customers =
    some ((res.data.map Recommendation.customer).dedup.length) ∧
  res.summary.map Summary.items = some res.data.length ∧
  res.summary.map Summary.totalOrderQty =
    some ((res.data.map Recommendation.recommendedQty).sum) ∧
  res.summary.map Summary.totalPredictedQty =
    some (intTrunc ((res.data.map Recommendation.predicted).sum)) ∧
  res.summary.map Summary.totalBufferQty =
    some ((res.data.map Recommendation.bufferQty).sum) ∧
  res.summary.map Summary.customerFilter = some label

/-- C9 (amended): every successful result carries a summary whose date is
the aligned week, whose customer and row counts and order and buffer
totals are as claimed, whose predicted total is the integer TRUNCATION of
the sum of predicted_quantity, and whose filter label is the given
non-empty filter string or the all-customers label. -/
theorem summary_matches (svc : Service) (d : ℤ) (f : Option String)
    (h : (generateRecommendedOrders svc d f).success = true) :
    summarySpec (generateRecommendedOrders svc d f) (filterLabel f)
      (weekEnd d) := by
  unfold generateRecommendedOrders at h ⊢
  by_cases h1 : svc.predRows.isEmpty
  · simp [h1] at h
  · by_cases h2 : (selectWeek svc.predRows (weekEnd d)).isEmpty
    · simp [h1, h2] at h
    · simp only [h1, h2, Bool.false_eq_true, if_false]
      unfold summarySpec
      refine ⟨rfl, rfl, rfl, ?_, rfl, ?_, rfl⟩
      · exact congrArg some (mkSummary_totalOrderQty _ _ _)
      · exact congrArg some (mkSummary_totalBufferQty _ _ _)

def predRow9 : PredRow :=
  { trxDate := 19729, customer := "ACME", itemCode := "I2", itemName := "Gadget"
    predicted := 3/2, confidence := "High", demandPattern := "Smooth"
    dataSplit := "Forecast", totalQuantity := none }

def svc9 : Service :=
  { predRows := [predRow9], histMetrics := [], buyingCycle := []
    buyCounts := [("ACME", "I2", 3)] }

/-- C9 counterexample: a single output row with predicted quantity 3/2
yields total_predicted_qty = 1, while the sum of predicted_quantity over
the output rows is 3/2, so the summary does not equal that sum. -/
theorem summary_predicted_sum_counterexample :
    ((generateRecommendedOrders svc9 19729 none).summary.map
        Summary.totalPredictedQty) = some 1 ∧
    (((generateRecommendedOrders svc9 19729 none).data.map
        Recommendation.predicted).sum) = 3/2 ∧
    ¬ (((1 : ℤ) : ℚ) = 3/2) := by
  refine ⟨?_, ?_, by norm_num⟩ <;>
    norm_num +decide [generateRecommendedOrders, selectedRows, mergedWeekRows,
      weekSplits, selectWeek, mergeTestForecast, pairCovered, enrichRow,
      lookupHist, lookupCycle, lookupBuyCount, eligibleRow, activeFilter,
      scoreRow, calculateBuffer, calculateReasonCode, insertionSort, insertLe,
      recLe, roundHalfEven, weekEnd, pyWeekday, svc9, predRow9, mkSummary,
      intTrunc, filterLabel]

theorem summary_matches_witness :
    summarySpec (generateRecommendedOrders svc9 19729 none) (filterLabel none)
      (weekEnd 19729) :=
  summary_matches svc9 19729 none (by
    norm_num +decide [generateRecommendedOrders, selectWeek, weekEnd,
      pyWeekday, svc9, predRow9])

/- ## C10: only the Test and Forecast partitions reach the output -/

/-- C10: row selection for the week takes every snapshot row with the
matching date, yet every row that survives to the scored output comes
from the Test or Forecast partition, so rows of any other split (such as
Train) are silently excluded. -/
theorem only_test_or_forecast :
    (∀ (pred : List PredRow) (target : ℤ) (r : PredRow),
      r ∈ selectWeek pred target ↔ (r ∈ pred ∧ r.trxDate = target)) ∧
    (∀ (svc : Service) (target : ℤ) (f : Option String) (e : EnrichedRow),
      e ∈ selectedRows svc target f →
        e.row.dataSplit = "Test" ∨ e.row.dataSplit = "Forecast") ∧
    (∀ (svc : Service) (d : ℤ) (f : Option String) (r : Recommendation),
      r ∈ (generateRecommendedOrders svc d f).data →
        ∃ e, e ∈ selectedRows svc (weekEnd d) f ∧ r = scoreRow e) := by
  refine ⟨?_, ?_, mem_generate_data⟩
  · intro pred target r
    simp [selectWeek, List.mem_filter]
  · intro svc target f e he
    obtain ⟨r0, hr0, heq⟩ :=
      List.mem_map.1 (mem_selectedRows svc target f e he).1
    have hrow : e.row = r0 := by rw [← heq]; exact enrichRow_row svc r0
    rcases List.mem_append.1 hr0 with h | h
    · left
      rw [hrow]
      exact beq_iff_eq.1 (List.mem_filter.1 h).2
    · right
      rw [hrow]
      exact beq_iff_eq.1 (List.mem_filter.1 (List.mem_filter.1 h).1).2

theorem only_test_or_forecast_witness :
    eDemo.row.dataSplit = "Test" ∨ eDemo.row.dataSplit = "Forecast" :=
  only_test_or_forecast.2.1 svcDemo 19729 none eDemo (by
    norm_num +decide [selectedRows, mergedWeekRows, weekSplits, selectWeek,
      mergeTestForecast, pairCovered, enrichRow, lookupHist, lookupCycle,
      lookupBuyCount, eligibleRow, activeFilter, svcDemo, predRowDemo, eDemo])

end DemandForecast
